import Mathlib

set_option maxHeartbeats 1000000

/-! Shallow embedding of src/main.py: a FastAPI CRUD service over a MongoDB
    "users" collection.  Documents are modelled as records carrying an
    ObjectId (a 24-character hexadecimal string), a name and an age; the
    collection is a list kept in insertion order.  Each route handler is a
    pure function from the collection state to the new state paired with an
    HTTP outcome (success value or error). -/

/-- Characters removed by Python str.strip with no argument (whitespace). -/
def isPyWhitespace (c : Char) : Bool :=
  c == ' ' || c == '\t' || c == '\n' || c == '\r' || c == '\u000b' || c == '\u000c'

/-- Python str.strip(): remove leading and trailing whitespace. -/
def pyStrip (s : String) : String :=
  String.mk (((s.toList.dropWhile isPyWhitespace).reverse.dropWhile isPyWhitespace).reverse)

/-- Hexadecimal digit, either case (bson ObjectId string alphabet). -/
def isHexDigit (c : Char) : Bool :=
  c.isDigit || ('a' ≤ c && c ≤ 'f') || ('A' ≤ c && c ≤ 'F')

/-- bson ObjectId.is_valid on a string input: exactly 24 hex characters. -/
def isValidObjectId (s : String) : Bool :=
  s.length == 24 && s.toList.all isHexDigit

/-- Canonical spelling of ObjectId(s): bson stores the 12 bytes and prints
    lowercase hex, so parsing identifies a hex string with its lowercase form. -/
def normId (s : String) : String := String.mk (s.toList.map Char.toLower)

/-- A persisted document of the users collection. -/
structure Doc where
  oid : String
  name : String
  age : Int
  deriving Repr, DecidableEq

/-- The users collection, in insertion (store-native) order. -/
abbrev Store := List Doc

/-- Mongo find_one by _id filter: the first document with the given id. -/
def find_one (s : Store) (oid : String) : Option Doc :=
  s.find? (fun d => d.oid == oid)

/-- Mongo insert_one: append the document; the unique index on _id makes an
    insert with an already-present _id fail (None here models that failure). -/
def insert_one (s : Store) (d : Doc) : Option Store :=
  if s.any (fun e => e.oid == d.oid) then none else some (s ++ [d])

/-- The update document handed to a Mongo set operation: the explicitly
    provided non-null fields (the identifier is never among them, matching
    the k != "id" filter at src/main.py line 81). -/
structure UpdateData where
  name : Option String
  age : Option Int
  deriving Repr, DecidableEq

/-- Whether the update document carries no field at all (the falsy-dict test
    `if update_data:` at src/main.py line 83). -/
def UpdateData.isEmpty (d : UpdateData) : Bool :=
  d.name == none && d.age == none

/-- Effect of a Mongo set operation on a single document: provided fields
    overwrite, absent fields are left untouched. -/
def applySet (d : UpdateData) (doc : Doc) : Doc :=
  { doc with name := d.name.getD doc.name, age := d.age.getD doc.age }

/-- Mongo update_one with a set document: rewrite the first matching document,
    leave everything else unchanged. -/
def update_one (s : Store) (oid : String) (d : UpdateData) : Store :=
  match s with
  | [] => []
  | doc :: rest =>
    if doc.oid == oid then applySet d doc :: rest
    else doc :: update_one rest oid d

/-- Mongo delete_one: remove the first matching document and report
    deleted_count (1 if something matched, else 0). -/
def delete_one (s : Store) (oid : String) : Store × Nat :=
  match s with
  | [] => ([], 0)
  | doc :: rest =>
    if doc.oid == oid then (rest, 1)
    else
      let r := delete_one rest oid
      (doc :: r.1, r.2)

/-- A JSON request body for the user resource.  Each field is either absent
    (none), explicitly null (some none), or a well-typed value
    (some (some v)).  The outer layer is JSON key presence, the inner layer
    is JSON null. -/
structure RawBody where
  idField : Option (Option String)
  nameField : Option (Option String)
  ageField : Option (Option Int)
  deriving Repr, DecidableEq

/-- The field validator on name (src/main.py lines 36-41): reject an empty or
    all-whitespace value, otherwise return the ORIGINAL, untrimmed value. -/
def name_must_not_be_empty (v : String) : Except String String :=
  if v == "" || pyStrip v == "" then .error "Name cannot be empty" else .ok v

/-- PyObjectId.validate (src/main.py lines 19-23): accept only a string in
    valid ObjectId format, returning the parsed identifier in canonical form. -/
def PyObjectId.validate (v : String) : Except String String :=
  if isValidObjectId v then .ok (normId v) else .error "Invalid ObjectId"

/-- A validated UserModel (src/main.py lines 31-47): optional identifier
    (alias _id, default none) plus required name and age.  idWasSet records
    whether the _id key appeared in the body at all (the pydantic fields-set,
    consulted by exclude_unset dumps); name and age, being required, are
    always set on a model that validated. -/
structure UserModel where
  id : Option String
  name : String
  age : Int
  idWasSet : Bool
  deriving Repr, DecidableEq

/-- Pydantic validation of a request body against UserModel: the optional
    identifier may be absent or null (both give none) or a valid ObjectId
    string; name must be present, non-null, and pass the emptiness validator;
    age must be present and an integer.  Any failure is a request-validation
    error that FastAPI surfaces as HTTP 422. -/
def validateUser (b : RawBody) : Except String UserModel := do
  let p ←
    match b.idField with
    | none => pure ((none : Option String), false)
    | some none => pure ((none : Option String), true)
    | some (some v) => do
      let w ← PyObjectId.validate v
      pure (some w, true)
  let name ←
    match b.nameField with
    | some (some v) => name_must_not_be_empty v
    | _ => Except.error "name field required"
  let age ←
    match b.ageField with
    | some (some v) => pure v
    | _ => Except.error "age field required"
  pure { id := p.1, name := name, age := age, idWasSet := p.2 }

/-- Line 81 of src/main.py: model_dump(exclude_unset=True) filtered to keys
    other than "id" with non-null values.  On a validated model the required
    name and age are always in the fields-set and never null, and the id key
    is dropped by the filter whether set or not, so the result always holds
    exactly the name and the age. -/
def computeUpdateData (u : UserModel) : UpdateData :=
  { name := some u.name, age := some u.age }

/-- Failure outcome of a handler: a request-body validation error (FastAPI
    422), an HTTPException 404 naming the identifier, an uncaught bson
    InvalidId raised by ObjectId(id) on a malformed path identifier
    (unhandled, so HTTP 500), an uncaught duplicate-key error from
    insert_one (HTTP 500), or a response-model validation failure
    (HTTP 500, unreachable in practice). -/
inductive HandlerError where
  | validation (msg : String)
  | notFound (id : String)
  | invalidId
  | duplicateKey
  | responseInvalid
  deriving Repr, DecidableEq

/-- HTTP status code each failure surfaces as. -/
def HandlerError.httpStatus : HandlerError → Nat
  | .validation _ => 422
  | .notFound _ => 404
  | .invalidId => 500
  | .duplicateKey => 500
  | .responseInvalid => 500

/-- POST /users/ (src/main.py lines 63-67): validate the body, build the
    insert document keeping every field except a null _id, insert (the store
    assigns freshId when no client id is kept), re-fetch by the inserted id,
    return it with HTTP 201. -/
def create_user (body : RawBody) (freshId : String) (s : Store) :
    Store × Except HandlerError Doc :=
  match validateUser body with
  | .error m => (s, .error (.validation m))
  | .ok u =>
    let oid := u.id.getD freshId
    match insert_one s { oid := oid, name := u.name, age := u.age } with
    | none => (s, .error .duplicateKey)
    | some s' =>
      match find_one s' oid with
      | some d => (s', .ok d)
      | none => (s', .error .responseInvalid)

/-- GET /users/ (src/main.py lines 69-71): find().to_list(1000), HTTP 200. -/
def list_users (s : Store) : List Doc :=
  s.take 1000

/-- GET /users/{id} (src/main.py lines 73-77): ObjectId(id) raises on a
    malformed id before the store is touched; otherwise look up by id and
    return HTTP 200 with the document, or HTTPException 404. -/
def get_user (id : String) (s : Store) : Store × Except HandlerError Doc :=
  if isValidObjectId id then
    match find_one s (normId id) with
    | some d => (s, .ok d)
    | none => (s, .error (.notFound id))
  else (s, .error .invalidId)

/-- Lines 83-88 of src/main.py, after update_data has been computed: when the
    update document is non-empty, apply the set operation to the matching
    document; in either case re-fetch by id and return HTTP 200 with the
    current document, or HTTPException 404.  ObjectId(id) is evaluated before
    either store call, so a malformed id raises before any store access. -/
def update_apply (id : String) (d : UpdateData) (s : Store) :
    Store × Except HandlerError Doc :=
  if isValidObjectId id then
    let s' := if d.isEmpty then s else update_one s (normId id) d
    match find_one s' (normId id) with
    | some doc => (s', .ok doc)
    | none => (s', .error (.notFound id))
  else (s, .error .invalidId)

/-- PUT /users/{id} (src/main.py lines 79-88): FastAPI validates the body
    against UserModel first (422 on failure), then the handler computes the
    update document and runs the update-and-refetch step. -/
def update_user (id : String) (body : RawBody) (s : Store) :
    Store × Except HandlerError Doc :=
  match validateUser body with
  | .error m => (s, .error (.validation m))
  | .ok u => update_apply id (computeUpdateData u) s

/-- DELETE /users/{id} (src/main.py lines 90-94): ObjectId(id) raises on a
    malformed id before the store is touched; otherwise delete_one, HTTP 204
    with an empty body when something matched, else HTTPException 404. -/
def delete_user (id : String) (s : Store) : Store × Except HandlerError Unit :=
  if isValidObjectId id then
    let r := delete_one s (normId id)
    if r.2 == 0 then (r.1, .error (.notFound id)) else (r.1, .ok ())
  else (s, .error .invalidId)

/-! Store lemmas shared by the claim theorems. -/

/-- A lookup in a collection holding no document with the given id fails. -/
theorem find_one_none_of_fresh (s : Store) (oid : String)
    (h : s.any (fun e => e.oid == oid) = false) : find_one s oid = none := by
  induction s with
  | nil => rfl
  | cons d rest ih =>
    simp only [List.any_cons, Bool.or_eq_false_iff] at h
    simp only [find_one, List.find?, h.1]
    exact ih h.2

/-- Appending a document with a fresh id and looking it up returns it. -/
theorem find_one_append_fresh (s : Store) (d : Doc)
    (h : s.any (fun e => e.oid == d.oid) = false) :
    find_one (s ++ [d]) d.oid = some d := by
  induction s with
  | nil => simp [find_one, List.find?]
  | cons e rest ih =>
    simp only [List.any_cons, Bool.or_eq_false_iff] at h
    simp only [List.cons_append, find_one, List.find?, h.1]
    exact ih h.2

/-- Deleting an id that matches no document removes nothing. -/
theorem delete_one_not_found (s : Store) (oid : String)
    (h : find_one s oid = none) : delete_one s oid = (s, 0) := by
  induction s with
  | nil => rfl
  | cons d rest ih =>
    simp only [find_one, List.find?] at h
    cases hd : (d.oid == oid) with
    | true => simp [hd] at h
    | false =>
      simp only [hd] at h
      simp [delete_one, hd, ih h]

/-- Deleting a matching id from a collection with no duplicate ids reports
    deleted_count 1 and leaves no document with that id behind. -/
theorem delete_one_found (s : Store) (oid : String) (d : Doc)
    (hnd : (s.map Doc.oid).Nodup) (h : find_one s oid = some d) :
    (delete_one s oid).2 = 1 ∧ find_one (delete_one s oid).1 oid = none := by
  induction s with
  | nil => simp [find_one, List.find?] at h
  | cons e rest ih =>
    simp only [List.map_cons, List.nodup_cons] at hnd
    simp only [find_one, List.find?] at h
    cases he : (e.oid == oid) with
    | true =>
      have heq : e.oid = oid := by simpa using he
      refine ⟨by simp [delete_one, he], ?_⟩
      simp only [delete_one, he]
      apply find_one_none_of_fresh
      rw [List.any_eq_false]
      intro x hx hbx
      have hxoid : x.oid = oid := by simpa using hbx
      have hmem : e.oid ∈ List.map Doc.oid rest := by
        rw [heq, ← hxoid]
        exact List.mem_map_of_mem Doc.oid hx
      exact hnd.1 hmem
    | false =>
      simp only [he] at h
      obtain ⟨h1, h2⟩ := ih hnd.2 h
      refine ⟨by simpa [delete_one, he] using h1, ?_⟩
      simpa [delete_one, he, find_one, List.find?] using h2

/-! Claim theorems. -/

/-- Claim C1, evaluated at the failing input: a PUT whose body supplies only
    the age field is rejected by request validation with HTTP 422, because
    the single UserModel used for both request shapes makes name a required
    field; the store is left unchanged and no field of the stored document is
    modified, so the update does not succeed as the claim states. -/
theorem update_age_only_body_rejected :
    update_user "507f1f77bcf86cd799439011"
      { idField := none, nameField := none, ageField := some (some 31) }
      [{ oid := "507f1f77bcf86cd799439011", name := "Ada", age := 30 }] =
      ([{ oid := "507f1f77bcf86cd799439011", name := "Ada", age := 30 }],
        .error (.validation "name field required")) ∧
    HandlerError.httpStatus (.validation "name field required") = 422 :=
  ⟨rfl, rfl⟩

/-- Claim C2, counterexample to the surfaced status: on the malformed path
    identifier "not-an-objectid", Get fails with the uncaught InvalidId
    error, which surfaces as HTTP 500 — an unhandled server error, not a 4xx
    client error as the claim states. -/
theorem malformed_id_surfaces_500_not_4xx :
    (get_user "not-an-objectid" []).2 = .error .invalidId ∧
    HandlerError.invalidId.httpStatus = 500 ∧
    ¬ (400 ≤ HandlerError.invalidId.httpStatus ∧
        HandlerError.invalidId.httpStatus < 500) := by
  refine ⟨rfl, rfl, ?_⟩
  decide

/-- Claim C2 as amended: for every syntactically invalid path identifier,
    Get, Update (with any body that passes validation) and Delete all fail
    with the InvalidId error raised by ObjectId(id) before any store access —
    the store is returned unchanged and the outcome is the same for every
    store state — but the error is unhandled and surfaces as HTTP 500, not
    as a 4xx. -/
theorem malformed_id_fails_before_store_access (id : String) (s : Store)
    (h : isValidObjectId id = false) :
    get_user id s = (s, .error .invalidId) ∧
    delete_user id s = (s, .error .invalidId) ∧
    (∀ b u, validateUser b = .ok u →
      update_user id b s = (s, .error .invalidId)) ∧
    HandlerError.invalidId.httpStatus = 500 := by
  refine ⟨?_, ?_, ?_, rfl⟩
  · simp [get_user, h]
  · simp [delete_user, h]
  · intro b u hv
    simp [update_user, hv, update_apply, h]

/-- Concrete instance of the amended claim C2 at identifier "zzz". -/
theorem malformed_id_fails_witness :
    get_user "zzz" [] = ([], .error .invalidId) ∧
    update_user "zzz"
      { idField := none, nameField := some (some "Ada"),
        ageField := some (some 30) } [] = ([], .error .invalidId) := by
  have h := malformed_id_fails_before_store_access "zzz" [] (by decide)
  exact ⟨h.1, h.2.2.1 _ { id := none, name := "Ada", age := 30, idWasSet := false } rfl⟩

/-- Claim C3: for a valid payload (identifier absent or null, name accepted
    by the emptiness validator, integer age) and a fresh, syntactically
    valid, canonically spelled store-assigned identifier, Create succeeds
    with HTTP 201 returning the full record, and Get on the returned
    identifier returns the very same record: the input fields plus the
    assigned non-null identifier. -/
theorem create_then_get_roundtrip (s : Store) (idF : Option (Option String))
    (n : String) (a : Int) (fid : String)
    (hid : idF = none ∨ idF = some none)
    (hn : (n == "" || pyStrip n == "") = false)
    (hv : isValidObjectId fid = true)
    (hc : normId fid = fid)
    (hf : s.any (fun e => e.oid == fid) = false) :
    create_user ⟨idF, some (some n), some (some a)⟩ fid s =
      (s ++ [{ oid := fid, name := n, age := a }],
        .ok { oid := fid, name := n, age := a }) ∧
    get_user fid (s ++ [{ oid := fid, name := n, age := a }]) =
      (s ++ [{ oid := fid, name := n, age := a }],
        .ok { oid := fid, name := n, age := a }) := by
  have hfind := find_one_append_fresh s { oid := fid, name := n, age := a } hf
  constructor
  · rcases hid with h | h <;> subst h <;>
      simp [create_user, validateUser, name_must_not_be_empty, hn, bind,
        Except.bind, pure, Except.pure, insert_one, hf, hfind]
  · simp [get_user, hv, hc, hfind]

/-- Concrete instance of claim C3: creating the user Ada aged 30 in the
    empty store and reading it back by the assigned identifier. -/
theorem create_then_get_roundtrip_witness :
    create_user ⟨none, some (some "Ada"), some (some 30)⟩ "507f191e810c19729de860ea" [] =
      ([{ oid := "507f191e810c19729de860ea", name := "Ada", age := 30 }],
        .ok { oid := "507f191e810c19729de860ea", name := "Ada", age := 30 }) ∧
    get_user "507f191e810c19729de860ea"
        [{ oid := "507f191e810c19729de860ea", name := "Ada", age := 30 }] =
      ([{ oid := "507f191e810c19729de860ea", name := "Ada", age := 30 }],
        .ok { oid := "507f191e810c19729de860ea", name := "Ada", age := 30 }) :=
  create_then_get_roundtrip [] none "Ada" 30 "507f191e810c19729de860ea"
    (Or.inl rfl) (by decide) (by decide) (by decide) rfl

/-- Claim C4: Create with a name that is empty or all-whitespace is rejected
    by the field validator as a validation error surfaced as HTTP 422, and
    the store is returned unchanged: nothing is persisted. -/
theorem create_empty_name_rejected (s : Store) (fid : String)
    (idF : Option (Option String)) (ageF : Option (Option Int)) (n : String)
    (hn : pyStrip n = "") :
    (create_user ⟨idF, some (some n), ageF⟩ fid s).1 = s ∧
    ∃ m, (create_user ⟨idF, some (some n), ageF⟩ fid s).2 = .error (.validation m) ∧
      HandlerError.httpStatus (.validation m) = 422 := by
  have hval : ∃ m, validateUser ⟨idF, some (some n), ageF⟩ = .error m := by
    cases idF with
    | none =>
      exact ⟨"Name cannot be empty", by
        simp [validateUser, name_must_not_be_empty, hn, bind, Except.bind,
          pure, Except.pure, Except.instMonad]⟩
    | some o =>
      cases o with
      | none =>
        exact ⟨"Name cannot be empty", by
          simp [validateUser, name_must_not_be_empty, hn, bind, Except.bind,
            pure, Except.pure, Except.instMonad]⟩
      | some v =>
        cases hvv : isValidObjectId v with
        | true =>
          exact ⟨"Name cannot be empty", by
            simp [validateUser, PyObjectId.validate, hvv,
              name_must_not_be_empty, hn, bind, Except.bind,
              pure, Except.pure, Except.instMonad]⟩
        | false =>
          exact ⟨"Invalid ObjectId", by
            simp [validateUser, PyObjectId.validate, hvv, bind, Except.bind,
              pure, Except.pure, Except.instMonad]⟩
  obtain ⟨m, hm⟩ := hval
  exact ⟨by simp [create_user, hm], m, by simp [create_user, hm], rfl⟩

/-- Concrete instance of claim C4: creating a user named by three spaces in
    a one-document store fails with a 422 validation error and persists
    nothing. -/
theorem create_empty_name_rejected_witness :
    (create_user ⟨none, some (some "   "), some (some 30)⟩ "507f191e810c19729de860ea"
        [{ oid := "507f1f77bcf86cd799439011", name := "Ada", age := 30 }]).1 =
      [{ oid := "507f1f77bcf86cd799439011", name := "Ada", age := 30 }] ∧
    ∃ m, (create_user ⟨none, some (some "   "), some (some 30)⟩ "507f191e810c19729de860ea"
        [{ oid := "507f1f77bcf86cd799439011", name := "Ada", age := 30 }]).2 =
      .error (.validation m) ∧
      HandlerError.httpStatus (.validation m) = 422 :=
  create_empty_name_rejected
    [{ oid := "507f1f77bcf86cd799439011", name := "Ada", age := 30 }]
    "507f191e810c19729de860ea" none (some (some 30)) "   " (by decide)

/-- Claim C5: on a syntactically valid identifier over a store with no
    duplicate identifiers, Delete removes the matching document and returns
    HTTP 204 with an empty body when one matched, and NotFound (404) when no
    document matched; after a successful Delete, both Get and a second Delete
    on the same identifier return NotFound. -/
theorem delete_semantics_and_idempotence (id : String) (s : Store)
    (hv : isValidObjectId id = true)
    (hnd : (s.map Doc.oid).Nodup) :
    (find_one s (normId id) = none →
      delete_user id s = (s, .error (.notFound id)) ∧
      HandlerError.httpStatus (.notFound id) = 404) ∧
    (∀ d, find_one s (normId id) = some d →
      (delete_user id s).2 = .ok () ∧
      get_user id (delete_user id s).1 =
        ((delete_user id s).1, .error (.notFound id)) ∧
      delete_user id (delete_user id s).1 =
        ((delete_user id s).1, .error (.notFound id))) := by
  constructor
  · intro h
    have hdel := delete_one_not_found s (normId id) h
    exact ⟨by simp [delete_user, hv, hdel], rfl⟩
  · intro d h
    obtain ⟨h1, h2⟩ := delete_one_found s (normId id) d hnd h
    have hs' : (delete_user id s).1 = (delete_one s (normId id)).1 := by
      simp [delete_user, hv, h1]
    refine ⟨by simp [delete_user, hv, h1], ?_, ?_⟩
    · rw [hs']
      simp [get_user, hv, h2]
    · rw [hs']
      have hdel2 := delete_one_not_found _ (normId id) h2
      simp [delete_user, hv, hdel2]

/-- Concrete instance of claim C5: deleting the single stored user returns
    204, after which Get and a second Delete on that identifier both return
    NotFound. -/
theorem delete_semantics_witness :
    (delete_user "507f1f77bcf86cd799439011"
      [{ oid := "507f1f77bcf86cd799439011", name := "Ada", age := 30 }]).2 = .ok () ∧
    get_user "507f1f77bcf86cd799439011"
      (delete_user "507f1f77bcf86cd799439011"
        [{ oid := "507f1f77bcf86cd799439011", name := "Ada", age := 30 }]).1 =
      ((delete_user "507f1f77bcf86cd799439011"
        [{ oid := "507f1f77bcf86cd799439011", name := "Ada", age := 30 }]).1,
        .error (.notFound "507f1f77bcf86cd799439011")) ∧
    delete_user "507f1f77bcf86cd799439011"
      (delete_user "507f1f77bcf86cd799439011"
        [{ oid := "507f1f77bcf86cd799439011", name := "Ada", age := 30 }]).1 =
      ((delete_user "507f1f77bcf86cd799439011"
        [{ oid := "507f1f77bcf86cd799439011", name := "Ada", age := 30 }]).1,
        .error (.notFound "507f1f77bcf86cd799439011")) :=
  (delete_semantics_and_idempotence "507f1f77bcf86cd799439011"
      [{ oid := "507f1f77bcf86cd799439011", name := "Ada", age := 30 }]
      (by decide) (by decide)).2
    { oid := "507f1f77bcf86cd799439011", name := "Ada", age := 30 } rfl

/-- Claim C6: when the computed update document is empty, the update step of
    the PUT handler performs no write — the store is returned unchanged — and
    still performs the re-fetch by identifier, yielding HTTP 200 with the
    currently stored record, or NotFound (404) when no document exists. -/
theorem empty_update_set_noop_refetch (id : String) (d : UpdateData) (s : Store)
    (hv : isValidObjectId id = true) (he : d.isEmpty = true) :
    (update_apply id d s).1 = s ∧
    (update_apply id d s).2 =
      (match find_one s (normId id) with
        | some doc => Except.ok doc
        | none => Except.error (HandlerError.notFound id)) := by
  cases hf : find_one s (normId id) <;>
    simp [update_apply, hv, he, hf]

/-- Concrete instance of claim C6: the empty update document leaves the
    one-document store untouched and returns the stored record. -/
theorem empty_update_set_witness :
    (update_apply "507f191e810c19729de860ea" { name := none, age := none }
      [{ oid := "507f191e810c19729de860ea", name := "Bob", age := 7 }]).1 =
      [{ oid := "507f191e810c19729de860ea", name := "Bob", age := 7 }] ∧
    (update_apply "507f191e810c19729de860ea" { name := none, age := none }
      [{ oid := "507f191e810c19729de860ea", name := "Bob", age := 7 }]).2 =
      (match find_one [{ oid := "507f191e810c19729de860ea", name := "Bob", age := 7 }]
          (normId "507f191e810c19729de860ea") with
        | some doc => Except.ok doc
        | none => Except.error (HandlerError.notFound "507f191e810c19729de860ea")) :=
  empty_update_set_noop_refetch "507f191e810c19729de860ea"
    { name := none, age := none }
    [{ oid := "507f191e810c19729de860ea", name := "Bob", age := 7 }]
    (by decide) (by decide)

/-- Claim C7: List returns at most 1000 records, in store-native order; on a
    store holding at most 1000 documents it returns exactly the stored
    documents, and in particular the empty array on an empty store. -/
theorem list_users_cap_and_exhaustive (s : Store) :
    (list_users s).length ≤ 1000 ∧
    (s.length ≤ 1000 → list_users s = s) ∧
    list_users ([] : Store) = [] := by
  refine ⟨?_, ?_, rfl⟩
  · simp [list_users]
  · intro h
    simp [list_users, List.take_of_length_le h]

/-- Concrete instance of claim C7 on a two-document store. -/
theorem list_users_cap_witness :
    (list_users [{ oid := "507f1f77bcf86cd799439011", name := "Ada", age := 30 },
      { oid := "507f191e810c19729de860ea", name := "Bob", age := 7 }]).length ≤ 1000 ∧
    list_users [{ oid := "507f1f77bcf86cd799439011", name := "Ada", age := 30 },
      { oid := "507f191e810c19729de860ea", name := "Bob", age := 7 }] =
      [{ oid := "507f1f77bcf86cd799439011", name := "Ada", age := 30 },
        { oid := "507f191e810c19729de860ea", name := "Bob", age := 7 }] :=
  ⟨(list_users_cap_and_exhaustive
      [{ oid := "507f1f77bcf86cd799439011", name := "Ada", age := 30 },
        { oid := "507f191e810c19729de860ea", name := "Bob", age := 7 }]).1,
    (list_users_cap_and_exhaustive
      [{ oid := "507f1f77bcf86cd799439011", name := "Ada", age := 30 },
        { oid := "507f191e810c19729de860ea", name := "Bob", age := 7 }]).2.1
      (by decide)⟩

/-- Claim C8: a Create whose payload carries a non-null, syntactically valid
    identifier (here in canonical spelling, and not colliding with a stored
    document) inserts the document under that client-supplied identifier —
    the conclusion does not depend on the store-assigned freshId — and the
    returned record carries the client-supplied identifier; only a null
    identifier is stripped before insertion. -/
theorem create_with_client_supplied_id (s : Store) (freshId v n : String) (a : Int)
    (hvv : isValidObjectId v = true)
    (hcan : normId v = v)
    (hn : (n == "" || pyStrip n == "") = false)
    (hf : s.any (fun e => e.oid == v) = false) :
    create_user ⟨some (some v), some (some n), some (some a)⟩ freshId s =
      (s ++ [{ oid := v, name := n, age := a }],
        .ok { oid := v, name := n, age := a }) := by
  have hfind := find_one_append_fresh s { oid := v, name := n, age := a } hf
  simp [create_user, validateUser, PyObjectId.validate, hvv, hcan,
    name_must_not_be_empty, hn, bind, Except.bind, pure, Except.pure,
    Except.instMonad, insert_one, hf, hfind]

/-- Concrete instance of claim C8: the supplied _id wins over the
    store-assigned identifier. -/
theorem create_with_client_supplied_id_witness :
    create_user ⟨some (some "507f1f77bcf86cd799439011"), some (some "Eve"),
        some (some 5)⟩ "aaaaaaaaaaaaaaaaaaaaaaaa" [] =
      ([{ oid := "507f1f77bcf86cd799439011", name := "Eve", age := 5 }],
        .ok { oid := "507f1f77bcf86cd799439011", name := "Eve", age := 5 }) :=
  create_with_client_supplied_id [] "aaaaaaaaaaaaaaaaaaaaaaaa"
    "507f1f77bcf86cd799439011" "Eve" 5 (by decide) (by decide) (by decide) rfl

/-- Claim C9: every body that passes UserModel validation necessarily
    supplies both name and age explicitly (they are required fields of the
    single model used for both request shapes), so the computed update
    document always holds exactly those two fields, is never empty, and the
    set operation it drives overwrites both the name and the age of the
    matched document, keeping only its identifier. -/
theorem validated_put_body_updates_both_fields (b : RawBody) (u : UserModel)
    (hv : validateUser b = .ok u) :
    b.nameField = some (some u.name) ∧
    b.ageField = some (some u.age) ∧
    computeUpdateData u = { name := some u.name, age := some u.age } ∧
    (computeUpdateData u).isEmpty = false ∧
    ∀ doc, applySet (computeUpdateData u) doc =
      { oid := doc.oid, name := u.name, age := u.age } := by
  obtain ⟨idF, nameF, ageF⟩ := b
  rcases idF with _ | (_ | iv) <;>
    rcases nameF with _ | (_ | nv) <;>
      rcases ageF with _ | (_ | av) <;>
        simp only [validateUser, bind, Except.bind, pure, Except.pure,
          Except.instMonad, name_must_not_be_empty, PyObjectId.validate] at hv
  all_goals try exact (Except.noConfusion hv)
  all_goals try split_ifs at hv
  all_goals obtain rfl := (Except.ok.inj hv)
  all_goals exact ⟨rfl, rfl, rfl, rfl, fun doc => rfl⟩

/-- Concrete instance of claim C9: the fully supplied body yields the
    two-field update document and the set operation overwrites both fields. -/
theorem validated_put_body_updates_witness :
    ({ idField := none, nameField := some (some "Ada"),
        ageField := some (some 31) } : RawBody).nameField = some (some "Ada") ∧
    ({ idField := none, nameField := some (some "Ada"),
        ageField := some (some 31) } : RawBody).ageField = some (some (31 : Int)) ∧
    computeUpdateData { id := none, name := "Ada", age := 31, idWasSet := false } =
      { name := some "Ada", age := some 31 } ∧
    (computeUpdateData { id := none, name := "Ada", age := 31, idWasSet := false }).isEmpty = false ∧
    ∀ doc, applySet (computeUpdateData
        { id := none, name := "Ada", age := 31, idWasSet := false }) doc =
      { oid := doc.oid, name := "Ada", age := 31 } :=
  validated_put_body_updates_both_fields
    ⟨none, some (some "Ada"), some (some 31)⟩
    { id := none, name := "Ada", age := 31, idWasSet := false } rfl

/-- Claim C10: the name validator rejects only a name whose trimmed value is
    empty and returns the original untrimmed string, so a name carrying
    leading or trailing whitespace around non-whitespace content is accepted
    and persisted exactly as supplied, whitespace included. -/
theorem name_whitespace_preserved (s : Store) (fid n : String) (a : Int)
    (hn : pyStrip n ≠ "")
    (hf : s.any (fun e => e.oid == fid) = false) :
    name_must_not_be_empty n = .ok n ∧
    create_user ⟨none, some (some n), some (some a)⟩ fid s =
      (s ++ [{ oid := fid, name := n, age := a }],
        .ok { oid := fid, name := n, age := a }) := by
  have hne : n ≠ "" := by
    intro h
    rw [h] at hn
    exact hn rfl
  have hcond : (n == "" || pyStrip n == "") = false := by
    simp [hne, hn]
  have hfind := find_one_append_fresh s { oid := fid, name := n, age := a } hf
  constructor
  · simp [name_must_not_be_empty, hcond]
  · simp [create_user, validateUser, name_must_not_be_empty, hcond, bind,
      Except.bind, pure, Except.pure, Except.instMonad, insert_one, hf, hfind]

/-- Concrete instance of claim C10: the name with two leading and two
    trailing spaces is accepted and stored exactly as supplied. -/
theorem name_whitespace_preserved_witness :
    name_must_not_be_empty "  Ada  " = .ok "  Ada  " ∧
    create_user ⟨none, some (some "  Ada  "), some (some 30)⟩
        "507f191e810c19729de860ea" [] =
      ([{ oid := "507f191e810c19729de860ea", name := "  Ada  ", age := 30 }],
        .ok { oid := "507f191e810c19729de860ea", name := "  Ada  ", age := 30 }) :=
  name_whitespace_preserved [] "507f191e810c19729de860ea" "  Ada  " 30
    (by decide) rfl
